import Mathlib

/-!
Shallow embedding of the Social-Media-Content-Analyzer text-extraction
module (TypeScript/React) in Lean 4.

Embedded sources:
- `src/utils/fileValidation.ts` (`validateFile`)
- `src/utils/textExtraction.ts` (`extractTextFromPDF`, `extractTextFromImage`,
  `extractTextFromFile`)
- the `useFileExtraction` hook shown in `src/Docs/text-extractor-pr.md`
  (`handleFileExtraction`, progress-record state, the 2-second auto-clear
  timer).

Conventions: JavaScript numbers that hold byte counts, page counts and
percentages are modelled as `Nat`; `Math.round` (round half towards
positive infinity) on a non-negative rational `num/den` is
`(2*num + den) / (2*den)` in `Nat` division; `Number.prototype.toFixed(2)`
on the exactly-representable value `size / 2^20` rounds to the nearest
hundredth, ties upward.  Nullable values are `Option`, thrown exceptions
are `Except String`.
-/

namespace SMCA

/-! ## Definitions -/

/-- A browser `File` descriptor: name, declared MIME type, byte size. -/
structure FileDesc where
  name : String
  type : String
  size : Nat
  deriving Repr, DecidableEq

/-- The allow-list from `src/utils/fileValidation.ts`. -/
def SUPPORTED_FORMATS : List String :=
  ["application/pdf", "image/png", "image/jpeg", "image/jpg", "image/webp"]

/-- `MAX_FILE_SIZE = 25 * 1024 * 1024` from `src/utils/fileValidation.ts`. -/
def MAX_FILE_SIZE : Nat := 25 * 1024 * 1024

/-- Result record `{ valid: boolean; error?: string }` of `validateFile`. -/
structure ValidationResult where
  valid : Bool
  error : Option String
  deriving Repr, DecidableEq

/-- Two-digit zero-padded rendering of a number below 100. -/
def pad2 (n : Nat) : String :=
  if n < 10 then "0" ++ toString n else toString n

/-- `(size / 1024 / 1024).toFixed(2)`: the byte size divided by 2^20 is
exactly representable as a double for every realistic size, and `toFixed(2)`
rounds it to the nearest hundredth with ties towards the larger value.
`524288 = 2^19` and `1048576 = 2^20`. -/
def toFixed2MB (size : Nat) : String :=
  let hundredths := (size * 100 + 524288) / 1048576
  toString (hundredths / 100) ++ "." ++ pad2 (hundredths % 100)

/-- `validateFile` from `src/utils/fileValidation.ts`: null check, then the
format allow-list check, then the size-ceiling check. -/
def validateFile (file : Option FileDesc) : ValidationResult :=
  match file with
  | none => ⟨false, some "No file provided"⟩
  | some f =>
    if f.type ∈ SUPPORTED_FORMATS then
      if f.size > MAX_FILE_SIZE then
        ⟨false, some ("File size exceeds 25MB limit. Current: " ++
          toFixed2MB f.size ++ "MB")⟩
      else
        ⟨true, none⟩
    else
      ⟨false, some "Unsupported file format. Supported: PDF, PNG, JPG, WEBP"⟩

/-- A positioned text fragment from `page.getTextContent().items`:
`str` and the Y coordinate `transform[5]`. -/
structure TextItem where
  str : String
  y : Int
  deriving Repr, DecidableEq

/-- A PDF page: the list of its text items, in content order. -/
structure PDFPage where
  items : List TextItem
  deriving Repr, DecidableEq

/-- A parsed PDF document: its pages (`pdf.numPages = pages.length`). -/
structure PDFDoc where
  pages : List PDFPage
  deriving Repr, DecidableEq

/-- Whitespace as stripped by JavaScript `String.prototype.trim`
(ASCII portion). -/
def isJSWhitespace (c : Char) : Bool :=
  c = ' ' || c = '\t' || c = '\n' || c = '\r'

/-- JavaScript `s.trim()`: strip leading and trailing whitespace. -/
def jsTrim (s : String) : String :=
  ⟨((s.data.dropWhile isJSWhitespace).reverse.dropWhile isJSWhitespace).reverse⟩

/-- The per-item fold of `extractTextFromPDF`: insert a line break when the
Y coordinate of consecutive items differs by more than 5, then append the
item text; `lastY` starts as `null`. -/
def pageTextAux : Option Int → List TextItem → String
  | _, [] => ""
  | lastY, item :: rest =>
    let brk :=
      match lastY with
      | some y => if (item.y - y).natAbs > 5 then "\n" else ""
      | none => ""
    brk ++ item.str ++ pageTextAux (some item.y) rest

/-- Text of one page as accumulated by `extractTextFromPDF`. -/
def pageText (pg : PDFPage) : String :=
  pageTextAux none pg.items

/-- `Math.round(num / den)` for non-negative JavaScript numbers: round to
nearest, halves towards positive infinity. -/
def jsRound (num den : Nat) : Nat :=
  (2 * num + den) / (2 * den)

/-- The progress value `Math.round((pageNum / totalPages) * 100)` reported
after page `p` of `n`. -/
def pdfPageProgress (n p : Nat) : Nat :=
  jsRound (p * 100) n

/-- The sequence of `onProgress` arguments of `extractTextFromPDF` for an
`n`-page document: one call per page, pages 1..n in order. -/
def pdfProgressEvents (n : Nat) : List Nat :=
  (List.range n).map (fun i => pdfPageProgress n (i + 1))

/-- `fullText` of `extractTextFromPDF` before trimming: each page's text
followed by a blank line (`'\n\n'`). -/
def pdfFullText (doc : PDFDoc) : String :=
  doc.pages.foldl (fun acc pg => acc ++ pageText pg ++ "\n\n") ""

/-- `extractTextFromPDF`: on a parse failure the catch block rethrows with
the `PDF extraction failed: ` message; on success it returns the trimmed
concatenation and has emitted one progress call per page.  The result is
paired with the list of progress-callback arguments. -/
def extractTextFromPDF (doc : Except String PDFDoc) :
    Except String String × List Nat :=
  match doc with
  | .error e => (.error ("PDF extraction failed: " ++ e), [])
  | .ok d => (.ok (jsTrim (pdfFullText d)), pdfProgressEvents d.pages.length)

/-- The browser's object-URL table: the next fresh handle and the list of
currently allocated (not yet revoked) handles. -/
structure URLState where
  nextId : Nat
  live : List Nat
  deriving Repr, DecidableEq

/-- `URL.createObjectURL(file)`: allocates a fresh handle. -/
def createObjectURL (s : URLState) : Nat × URLState :=
  (s.nextId, ⟨s.nextId + 1, s.nextId :: s.live⟩)

/-- `URL.revokeObjectURL(url)`: releases a handle. -/
def revokeObjectURL (s : URLState) (u : Nat) : URLState :=
  ⟨s.nextId, s.live.erase u⟩

/-- `result.data` of `Tesseract.recognize`: recognized text and the
optional confidence score. -/
structure OCRData where
  text : String
  confidence : Option Nat
  deriving Repr, DecidableEq

/-- One `logger` message's fractional progress, as an exact fraction
`num / den` in `[0, 1]` (`den > 0`); a message whose progress is absent or
zero is the falsy case of `if (message.progress)`. -/
abbrev ProgressFrac := Nat × Nat

/-- The `onProgress` arguments forwarded by the image path's `logger`:
messages with falsy (zero) progress are skipped, the rest are rescaled by
`Math.round(message.progress * 100)`. -/
def imageProgressEvents (msgs : List ProgressFrac) : List Nat :=
  (msgs.filter (fun m => m.1 != 0)).map (fun m => jsRound (100 * m.1) m.2)

/-- `extractTextFromImage`: allocates an object URL for the image bytes,
runs OCR, revokes the URL, and returns the trimmed text with
`confidence || 0`.  The `catch` block rethrows with the
`OCR extraction failed: ` message — control jumps there from the `await`,
before the revoke statement, so no release happens on that path.  The
result is paired with the final object-URL table. -/
def extractTextFromImage (s : URLState) (ocr : Except String OCRData) :
    Except String (String × Nat) × URLState :=
  let alloc := createObjectURL s
  match ocr with
  | .error e => (.error ("OCR extraction failed: " ++ e), alloc.2)
  | .ok d =>
      (.ok (jsTrim d.text, d.confidence.getD 0), revokeObjectURL alloc.2 alloc.1)

/-- `ExtractedResult` from `src/types/index.ts`; `extractedAt` is the
`new Date()` timestamp, modelled as a `Nat` clock value. -/
structure ExtractedResult where
  fileName : String
  fileType : String
  extractedText : String
  previewUrl : String
  confidence : Option Nat
  extractedAt : Nat
  deriving Repr, DecidableEq

/-- `UploadProgress` from `src/types/index.ts`. -/
structure UploadProgress where
  fileName : String
  progress : Nat
  status : String
  error : Option String
  deriving Repr, DecidableEq

/-- The hook's reactive state: result list, singleton progress record,
busy flag. -/
structure HookState where
  extractedResults : List ExtractedResult
  uploadProgress : Option UploadProgress
  isLoading : Bool
  deriving Repr, DecidableEq

/-- `file.type === 'application/pdf' ? 'pdf' : 'image'`. -/
def fileTypeOf (f : FileDesc) : String :=
  if f.type = "application/pdf" then "pdf" else "image"

/-- The start of `handleFileExtraction`: busy flag set, progress record
created fresh at `{ progress: 0, status: 'extracting' }`. -/
def beginExtraction (s : HookState) (f : FileDesc) : HookState :=
  { s with
      isLoading := true
      uploadProgress := some ⟨f.name, 0, "extracting", none⟩ }

/-- The progress callback passed to `extractTextFromFile`:
`prev ? { ...prev, progress, status: 'extracting' } : null`. -/
def applyTick (prog : Option UploadProgress) (p : Nat) : Option UploadProgress :=
  match prog with
  | some prev => some { prev with progress := p, status := "extracting" }
  | none => none

/-- The success branch of `handleFileExtraction`: prepend the new
`ExtractedResult`, set the record to `{ progress: 100, status: 'complete' }`,
clear the busy flag (the `setTimeout` it schedules is modelled in the
timed layer below). -/
def onSuccess (s : HookState) (f : FileDesc) (previewUrl text : String)
    (confidence : Option Nat) (now : Nat) : HookState :=
  { extractedResults :=
      ⟨f.name, fileTypeOf f, text, previewUrl, confidence, now⟩ ::
        s.extractedResults
    uploadProgress := some ⟨f.name, 100, "complete", none⟩
    isLoading := false }

/-- The catch branch of `handleFileExtraction`: record the error, leave the
result list alone; the `finally` clears the busy flag. -/
def onFailure (s : HookState) (f : FileDesc) (msg : String) : HookState :=
  { s with
      uploadProgress := some ⟨f.name, 0, "error", some msg⟩
      isLoading := false }

/-- One complete `handleFileExtraction` call, the engine's behaviour given
by its terminal `outcome` (text and optional confidence, or the thrown
message) and the list of progress-callback arguments `ticks` it emitted
before terminating. -/
def handleFileExtraction (s : HookState) (f : FileDesc) (previewUrl : String)
    (outcome : Except String (String × Option Nat)) (ticks : List Nat)
    (now : Nat) : HookState :=
  let s1 := beginExtraction s f
  let s2 := { s1 with uploadProgress := ticks.foldl applyTick s1.uploadProgress }
  match outcome with
  | .ok (text, confidence) => onSuccess s2 f previewUrl text confidence now
  | .error msg => onFailure s2 f msg

/-- An end-to-end PDF attempt: run `extractTextFromPDF` on the parse
result, feed its outcome and its progress events to the orchestrator. -/
def runPDFExtractionAttempt (s : HookState) (f : FileDesc)
    (previewUrl : String) (doc : Except String PDFDoc) (now : Nat) : HookState :=
  let r := extractTextFromPDF doc
  handleFileExtraction s f previewUrl (r.1.map (fun t => (t, none))) r.2 now

/-- Hook state together with the number of scheduled, not yet fired and
never cancelled `setTimeout(() => setUploadProgress(null), 2000)` clears:
the hook keeps no handle to the timer and never calls `clearTimeout`. -/
structure TimedHookState where
  core : HookState
  pendingClears : Nat
  deriving Repr, DecidableEq

/-- The observable events of the hook on the browser's event loop. -/
inductive HookEvent where
  | beginEv (f : FileDesc)
  | tickEv (p : Nat)
  | successEv (f : FileDesc) (previewUrl text : String)
      (confidence : Option Nat) (now : Nat)
  | failureEv (f : FileDesc) (msg : String)
  | timerFireEv
  deriving Repr, DecidableEq

/-- One event-loop step.  `beginEv` does not touch `pendingClears` (the
code has no `clearTimeout`); `successEv` schedules one clear; a
`timerFireEv` with a pending clear runs `setUploadProgress(null)`
unconditionally and fires at most as many times as were scheduled. -/
def hookStep (s : TimedHookState) : HookEvent → TimedHookState
  | .beginEv f => ⟨beginExtraction s.core f, s.pendingClears⟩
  | .tickEv p =>
      ⟨{ s.core with uploadProgress := applyTick s.core.uploadProgress p },
       s.pendingClears⟩
  | .successEv f pv text c now =>
      ⟨onSuccess s.core f pv text c now, s.pendingClears + 1⟩
  | .failureEv f msg => ⟨onFailure s.core f msg, s.pendingClears⟩
  | .timerFireEv =>
      if s.pendingClears = 0 then s
      else ⟨{ s.core with uploadProgress := none }, s.pendingClears - 1⟩

/-- Run a list of event-loop steps. -/
def runHook (s : TimedHookState) (evs : List HookEvent) : TimedHookState :=
  evs.foldl hookStep s

/-- The initial hook state: empty results, no record, not busy. -/
def initialHookState : TimedHookState :=
  ⟨⟨[], none, false⟩, 0⟩

/-- First upload: a PDF that succeeds immediately, scheduling the
auto-clear. -/
def fileA : FileDesc := ⟨"a.pdf", "application/pdf", 100⟩

/-- Second upload: an image whose extraction is still in flight when the
first upload's auto-clear fires. -/
def fileB : FileDesc := ⟨"b.png", "image/png", 200⟩

/-- The event sequence realising the race: extraction of `fileA` completes
(auto-clear scheduled for 2 seconds later); before the timer fires the user
starts extracting `fileB`, which reaches 50 percent; then the stale timer
fires. -/
def staleClearTrace : List HookEvent :=
  [.beginEv fileA, .successEv fileA "pA" "text" none 0,
   .beginEv fileB, .tickEv 50, .timerFireEv]

/-! ## Theorems -/

/-- Claim C1: for a file whose declared media type is in the allow-list,
`validateFile` accepts when the byte size is at most 25 × 1024 × 1024 and
rejects with the `File size exceeds 25MB limit. Current: X.XXMB` message
(size over 2^20 rendered to two decimal places) when it is strictly
greater; a 30 MiB PNG yields exactly
`File size exceeds 25MB limit. Current: 30.00MB`. -/
theorem validateFile_size_gate (f : FileDesc)
    (h : f.type ∈ SUPPORTED_FORMATS) :
    (f.size ≤ MAX_FILE_SIZE → validateFile (some f) = ⟨true, none⟩) ∧
    (MAX_FILE_SIZE < f.size →
      validateFile (some f) =
        ⟨false, some ("File size exceeds 25MB limit. Current: " ++
          toFixed2MB f.size ++ "MB")⟩) ∧
    validateFile (some ⟨"photo.png", "image/png", 30 * 1024 * 1024⟩) =
      ⟨false, some "File size exceeds 25MB limit. Current: 30.00MB"⟩ := by
  refine ⟨fun hle => ?_, fun hgt => ?_, by decide⟩
  · simp only [validateFile, if_pos h, if_neg (by omega : ¬ f.size > MAX_FILE_SIZE)]
  · simp only [validateFile, if_pos h, if_pos (by omega : f.size > MAX_FILE_SIZE)]

/-- Witness for C1 at a 10-byte PNG and a 30 MiB PNG. -/
theorem validateFile_size_gate_witness :
    ("image/png" ∈ SUPPORTED_FORMATS ∧
      validateFile (some ⟨"a.png", "image/png", 10⟩) = ⟨true, none⟩) ∧
    ("image/png" ∈ SUPPORTED_FORMATS ∧
      validateFile (some ⟨"b.png", "image/png", 30 * 1024 * 1024⟩) =
        ⟨false, some "File size exceeds 25MB limit. Current: 30.00MB"⟩) :=
  ⟨⟨by decide,
    (validateFile_size_gate ⟨"a.png", "image/png", 10⟩ (by decide)).1 (by decide)⟩,
   ⟨by decide, by
    have h := (validateFile_size_gate ⟨"b.png", "image/png", 30 * 1024 * 1024⟩
      (by decide)).2.1 (by decide)
    simpa [toFixed2MB, pad2] using h⟩⟩

/-- Claim C8: for a file whose declared media type is outside the allow-list,
`validateFile` rejects with the unsupported-format message regardless of
byte size: the size check is never reached. -/
theorem validateFile_unsupported_format (f : FileDesc)
    (h : f.type ∉ SUPPORTED_FORMATS) :
    validateFile (some f) =
      ⟨false, some "Unsupported file format. Supported: PDF, PNG, JPG, WEBP"⟩ := by
  simp only [validateFile, if_neg h]

/-- Witness for C8 at a 30 MiB GIF (over the ceiling, still the
format message). -/
theorem validateFile_unsupported_format_witness :
    "image/gif" ∉ SUPPORTED_FORMATS ∧
    validateFile (some ⟨"c.gif", "image/gif", 30 * 1024 * 1024⟩) =
      ⟨false, some "Unsupported file format. Supported: PDF, PNG, JPG, WEBP"⟩ :=
  ⟨by decide,
   validateFile_unsupported_format ⟨"c.gif", "image/gif", 30 * 1024 * 1024⟩ (by decide)⟩

/-- Monotonicity of the per-page progress formula in the page number. -/
theorem pdfPageProgress_mono (n : Nat) {p q : Nat} (h : p ≤ q) :
    pdfPageProgress n p ≤ pdfPageProgress n q := by
  unfold pdfPageProgress jsRound
  exact Nat.div_le_div_right (by omega)

/-- The reported PDF progress sequence is non-decreasing. -/
theorem pdfProgressEvents_pairwise (n : Nat) :
    (pdfProgressEvents n).Pairwise (· ≤ ·) :=
  (List.pairwise_lt_range n).map _
    (fun a b hab => pdfPageProgress_mono n (by omega))

/-- The final page reports exactly 100. -/
theorem pdfPageProgress_last (n : Nat) (hn : 1 ≤ n) :
    pdfPageProgress n n = 100 := by
  unfold pdfPageProgress jsRound
  have h1 : 2 * (n * 100) + n = n + 2 * n * 100 := by ring
  rw [h1, Nat.add_mul_div_left _ _ (by omega : 0 < 2 * n),
    Nat.div_eq_of_lt (by omega)]

/-- Claim C3: for an `n`-page PDF with `n ≥ 1`, the progress callback fires
exactly once per page with `round((pageNum / totalPages) * 100)`; the
sequence is non-decreasing and its last element is exactly 100; a 3-page
PDF reports `[33, 67, 100]`. -/
theorem pdf_progress_spec (n : Nat) (hn : 1 ≤ n) :
    (pdfProgressEvents n).length = n ∧
    (pdfProgressEvents n).Pairwise (· ≤ ·) ∧
    (pdfProgressEvents n).getLast? = some 100 ∧
    pdfProgressEvents 3 = [33, 67, 100] := by
  refine ⟨by simp [pdfProgressEvents], pdfProgressEvents_pairwise n, ?_, by decide⟩
  · obtain ⟨m, rfl⟩ : ∃ m, n = m + 1 := ⟨n - 1, by omega⟩
    unfold pdfProgressEvents
    rw [List.range_succ, List.map_append]
    simp only [List.map_cons, List.map_nil, List.getLast?_concat]
    exact congrArg some (pdfPageProgress_last (m + 1) hn)

/-- Witness for C3 at a 3-page document. -/
theorem pdf_progress_spec_witness :
    1 ≤ 3 ∧
    ((pdfProgressEvents 3).length = 3 ∧
     (pdfProgressEvents 3).Pairwise (· ≤ ·) ∧
     (pdfProgressEvents 3).getLast? = some 100 ∧
     pdfProgressEvents 3 = [33, 67, 100]) :=
  ⟨by decide, pdf_progress_spec 3 (by decide)⟩

/-- Claim C4 (demonstration at the failing input): on the success path the
allocated object URL is revoked, but on the failure path the `catch`
rethrows without revoking, so the handle allocated from the image bytes
stays live — the claimed acquire-then-guaranteed-release discipline does
not hold. -/
theorem extractTextFromImage_url_leak_on_failure :
    (extractTextFromImage ⟨0, []⟩ (.ok ⟨" hi ", some 90⟩)).2.live = [] ∧
    extractTextFromImage ⟨0, []⟩ (.error "network") =
      (.error ("OCR extraction failed: network"), ⟨1, [0]⟩) ∧
    (extractTextFromImage ⟨0, []⟩ (.error "network")).2.live = [0] := by
  refine ⟨rfl, rfl, rfl⟩

/-- Claim C2: when the engine fails, `handleFileExtraction` sets the
progress record to status `error` with progress 0 and the failure's
message, clears the busy flag, and leaves the result list exactly as it
was; for an unparseable PDF the recorded message carries the
`PDF extraction failed: ` prefix. -/
theorem handleFileExtraction_failure (s : HookState) (f : FileDesc)
    (previewUrl msg e : String) (ticks : List Nat) (now : Nat) :
    handleFileExtraction s f previewUrl (.error msg) ticks now =
      { s with
          uploadProgress := some ⟨f.name, 0, "error", some msg⟩
          isLoading := false } ∧
    (handleFileExtraction s f previewUrl (.error msg) ticks now).extractedResults =
      s.extractedResults ∧
    runPDFExtractionAttempt s f previewUrl (.error e) now =
      { s with
          uploadProgress :=
            some ⟨f.name, 0, "error", some ("PDF extraction failed: " ++ e)⟩
          isLoading := false } := by
  exact ⟨rfl, rfl, rfl⟩

/-- Claim C6: a successful extraction prepends exactly one new
`ExtractedResult` at index 0, leaving every pre-existing entry unchanged;
two sequential successful extractions leave the list ordered
second-then-first on top of the old contents. -/
theorem handleFileExtraction_success_prepends (s : HookState) (f g : FileDesc)
    (pv1 pv2 t1 t2 : String) (c1 c2 : Option Nat) (ticks1 ticks2 : List Nat)
    (n1 n2 : Nat) :
    (handleFileExtraction s f pv1 (.ok (t1, c1)) ticks1 n1).extractedResults =
      ⟨f.name, fileTypeOf f, t1, pv1, c1, n1⟩ :: s.extractedResults ∧
    (handleFileExtraction s f pv1 (.ok (t1, c1)) ticks1 n1).extractedResults.length =
      s.extractedResults.length + 1 ∧
    (handleFileExtraction
        (handleFileExtraction s f pv1 (.ok (t1, c1)) ticks1 n1)
        g pv2 (.ok (t2, c2)) ticks2 n2).extractedResults =
      ⟨g.name, fileTypeOf g, t2, pv2, c2, n2⟩ ::
        ⟨f.name, fileTypeOf f, t1, pv1, c1, n1⟩ :: s.extractedResults := by
  exact ⟨rfl, rfl, rfl⟩

/-- Claim C9: a progress tick never creates or resurrects a progress
record — `applyTick` maps `none` to `none`, and any sequence of ticks
starting from a cleared record leaves it cleared; on an existing record a
tick preserves the `fileName` (and `error`) while setting the status to
`extracting` and the new percent. -/
theorem applyTick_never_creates (p : Nat) (r : UploadProgress)
    (ticks : List Nat) :
    applyTick none p = none ∧
    ticks.foldl applyTick none = none ∧
    applyTick (some r) p = some ⟨r.fileName, p, "extracting", r.error⟩ := by
  refine ⟨rfl, ?_, rfl⟩
  induction ticks with
  | nil => rfl
  | cons t ts ih => simpa [applyTick] using ih

/-- Claim C10: a PDF that parses with zero pages yields `ok ""` and zero
progress-callback invocations (100 is never reported by the engine), yet
the orchestrator then records status `complete` with progress 100. -/
theorem zero_page_pdf (s : HookState) (f : FileDesc) (previewUrl : String)
    (now : Nat) :
    extractTextFromPDF (.ok ⟨[]⟩) = (.ok "", []) ∧
    100 ∉ (extractTextFromPDF (.ok ⟨[]⟩)).2 ∧
    (runPDFExtractionAttempt s f previewUrl (.ok ⟨[]⟩) now).uploadProgress =
      some ⟨f.name, 100, "complete", none⟩ ∧
    (runPDFExtractionAttempt s f previewUrl (.ok ⟨[]⟩) now).extractedResults =
      ⟨f.name, fileTypeOf f, "", previewUrl, none, now⟩ :: s.extractedResults := by
  have h1 : extractTextFromPDF (.ok ⟨[]⟩) = (.ok "", []) := rfl
  refine ⟨h1, ?_, ?_, ?_⟩
  · rw [h1]; decide
  · simp only [runPDFExtractionAttempt, h1]; rfl
  · simp only [runPDFExtractionAttempt, h1]; rfl

/-- Claim C5 (demonstration at the failing input): just before the stale
timer fires, the record belongs to the second, in-flight extraction
(`b.png`, 50 percent, `extracting`) and exactly one scheduled clear is
still pending; the fire then erases that record to `none`.  The pending
clear scheduled by the first extraction's completion is never invalidated
by the start of a new extraction, contradicting the claim. -/
theorem stale_auto_clear_erases_new_extraction :
    (runHook initialHookState (staleClearTrace.take 4)).core.uploadProgress =
      some ⟨"b.png", 50, "extracting", none⟩ ∧
    (runHook initialHookState (staleClearTrace.take 4)).pendingClears = 1 ∧
    (runHook initialHookState staleClearTrace).core.uploadProgress = none ∧
    (runHook initialHookState staleClearTrace).core.isLoading = true := by
  refine ⟨rfl, rfl, rfl, rfl⟩

/-- Claim C7 (counterexample): the image path forwards the library's
fractional signal unchanged, so a signal that goes `1` then `1/2` (as
Tesseract's logger emits across phases) is written as `100` then `50` —
a decrease inside a single extraction that is not the reset to 0, so the
claimed monotonicity fails as stated. -/
theorem image_progress_decreases_cex :
    imageProgressEvents [(1, 1), (1, 2)] = [100, 50] ∧
    ¬ (imageProgressEvents [(1, 1), (1, 2)]).Pairwise (· ≤ ·) := by
  exact ⟨by decide, by decide⟩

/-- `Math.round(100 * (a / b))` is monotone in the fraction `a / b`. -/
theorem jsRound_mono_frac {a1 b1 a2 b2 : Nat} (hb1 : 0 < b1) (hb2 : 0 < b2)
    (h : a1 * b2 ≤ a2 * b1) :
    jsRound (100 * a1) b1 ≤ jsRound (100 * a2) b2 := by
  unfold jsRound
  rw [Nat.le_div_iff_mul_le (by omega : 0 < 2 * b2)]
  have hk : 2 * (100 * a1) + b1 ≥ (2 * (100 * a1) + b1) / (2 * b1) * (2 * b1) :=
    Nat.div_mul_le_self _ _
  have hmul : (2 * (100 * a1) + b1) / (2 * b1) * (2 * b2) * b1 ≤
      (2 * (100 * a2) + b2) * b1 := by
    have h1 : (2 * (100 * a1) + b1) / (2 * b1) * (2 * b1) * b2 ≤
        (2 * (100 * a1) + b1) * b2 := Nat.mul_le_mul_right _ hk
    nlinarith
  exact Nat.le_of_mul_le_mul_right hmul hb1

/-- Claim C7 (amended): on the document path the reported sequence is
non-decreasing; on the image path each written value is
`round(100 * f)` for one of the library's nonzero fractional reports, and
the written sequence is non-decreasing provided the library's fractional
signal itself is non-decreasing — a decreasing signal is forwarded as a
decrease. -/
theorem progress_monotone_amended (n : Nat) (_hn : 1 ≤ n)
    (msgs : List ProgressFrac)
    (hden : ∀ m ∈ msgs, 0 < m.2)
    (hmono : msgs.Pairwise (fun a b => a.1 * b.2 ≤ b.1 * a.2)) :
    (pdfProgressEvents n).Pairwise (· ≤ ·) ∧
    (∀ x ∈ imageProgressEvents msgs,
      ∃ m ∈ msgs, m.1 ≠ 0 ∧ x = jsRound (100 * m.1) m.2) ∧
    (imageProgressEvents msgs).Pairwise (· ≤ ·) := by
  refine ⟨pdfProgressEvents_pairwise n, ?_, ?_⟩
  · intro x hx
    rcases List.mem_map.mp hx with ⟨m, hm, rfl⟩
    rcases List.mem_filter.mp hm with ⟨hmem, hne⟩
    exact ⟨m, hmem, by simpa using hne, rfl⟩
  · unfold imageProgressEvents
    rw [List.pairwise_map]
    refine (hmono.filter _).imp_of_mem ?_
    intro a b ha hb hab
    exact jsRound_mono_frac (hden a (List.mem_of_mem_filter ha))
      (hden b (List.mem_of_mem_filter hb)) hab

/-- Witness for the amended C7 at a 3-page document and a non-decreasing
library signal 1/4, 1/2, 1. -/
theorem progress_monotone_amended_witness :
    (1 ≤ 3 ∧ (∀ m ∈ [((1 : Nat), (4 : Nat)), (1, 2), (1, 1)], 0 < m.2) ∧
      List.Pairwise (fun a b => a.1 * b.2 ≤ b.1 * a.2)
        [((1 : Nat), (4 : Nat)), (1, 2), (1, 1)]) ∧
    ((pdfProgressEvents 3).Pairwise (· ≤ ·) ∧
     (∀ x ∈ imageProgressEvents [((1 : Nat), (4 : Nat)), (1, 2), (1, 1)],
       ∃ m ∈ [((1 : Nat), (4 : Nat)), (1, 2), (1, 1)],
         m.1 ≠ 0 ∧ x = jsRound (100 * m.1) m.2) ∧
     (imageProgressEvents [((1 : Nat), (4 : Nat)), (1, 2), (1, 1)]).Pairwise (· ≤ ·)) :=
  ⟨⟨by decide, by decide, by decide⟩,
   progress_monotone_amended 3 (by decide) [(1, 4), (1, 2), (1, 1)]
     (by decide) (by decide)⟩

end SMCA
